import Mathlib

/-!
Verification development for `rl_baselines/train.py` of the
robotics-rl-srl repository.

The file is a shallow embedding of the driver. Module-level mutable
globals become an explicit `Globals` record, the periodic `callback`
becomes a state-transition function that also reports its observable
side effects, and `main()` becomes a function producing the final
global state together with an ordered list of actions. External
collaborators (the `kuka_env` module, the `models` dict loaded from
YAML, `filterJSONSerializableObjects`, `computeMeanReward`,
`vars(args)`, `datetime.now()`) are kept opaque: they enter as
parameters, so every theorem is quantified over their behaviour.
-/

namespace RLBaselinesTrain

/-- Abstract stand-in for a Python dictionary whose contents the driver
never inspects, only filters and serializes. -/
structure PyDict where
  id : Nat
deriving DecidableEq, Repr

/-- State of the Python global `viz`: `pyNone` is Python `None` (before
any callback ran), `off` is `False` (set by the no-vis flag), and
`connected` is a live Visdom handle created inside `callback`. -/
inductive VizState
  | pyNone
  | off
  | connected
deriving DecidableEq, Repr

/-- Python truthiness of the `viz` global: `None` and `False` are falsy,
a Visdom object is truthy. -/
def VizState.truthy : VizState → Bool
  | .connected => true
  | _ => false

/-- Constant `N_EPISODES_EVAL = 50` of train.py. -/
def N_EPISODES_EVAL : Nat := 50

/-- Constant `EPISODE_WINDOW = 40` of train.py. -/
def EPISODE_WINDOW : Nat := 40

/-- Module-level mutable globals of train.py.  Mean rewards are modelled
as rationals. -/
structure Globals where
  VISDOM_PORT : Int
  LOG_INTERVAL : Nat
  LOG_DIR : String
  ALGO : String
  ENV_NAME : String
  PLOT_TITLE : String
  viz : VizState
  n_steps : Nat
  SAVE_INTERVAL : Nat
  params_saved : Bool
  best_mean_reward : Rat
  win : Option Unit
  win_smooth : Option Unit
  win_episodes : Option Unit
deriving DecidableEq, Repr

/-- Values the globals hold right after the module body of train.py has
run. -/
def initGlobals : Globals where
  VISDOM_PORT := 8097
  LOG_INTERVAL := 100
  LOG_DIR := ""
  ALGO := ""
  ENV_NAME := ""
  PLOT_TITLE := "Raw Pixels"
  viz := .pyNone
  n_steps := 0
  SAVE_INTERVAL := 500
  params_saved := false
  best_mean_reward := -10000
  win := none
  win_smooth := none
  win_episodes := none

/-- Fields of the external `kuka_env` module that train.py touches,
together with its globals dict (what `kuka_env.getGlobals()` returns),
kept opaque. -/
structure KukaEnv where
  USE_GROUND_TRUTH : Bool
  USE_SRL : Bool
  SRL_MODEL_PATH : String
  ACTION_REPEAT : Int
  globals_dict : PyDict
deriving DecidableEq, Repr

/-- Contents of the `models` dict loaded from `config/srl_models.yaml`:
a lookup from SRL model name to a relative path, plus the
`log_folder` entry. -/
structure ModelsDict where
  find : String → Option String
  log_folder : String

/-- Observable side effects of one `callback` invocation.
`connectedPort` records a `Visdom(port=VISDOM_PORT)` construction,
`wroteRlLocals` a JSON dump of the filtered locals, `readRewardLog`
the arguments of a `computeMeanReward` call, `savedModel` a
`.save(path)` call as a (locals key, path) pair, `plots` the titles of
the dashboard plots refreshed, and `result` the returned value. -/
structure CallbackEffects where
  connectedPort : Option Int
  wroteRlLocals : Option (String × PyDict)
  readRewardLog : Option (String × Nat)
  savedModel : Option (String × String)
  plots : List String
  result : Bool
deriving DecidableEq, Repr

/-- Which `.save` call the improvement branch of `callback` makes, as a
(locals key, checkpoint path) pair; `none` when no branch matches the
algorithm name. -/
def saveTarget (algo logDir : String) : Option (String × String) :=
  if algo = "deepq" then some ("act", logDir ++ "deepq_model.pkl")
  else if algo = "acer" then some ("model", logDir ++ "acer_model.pkl")
  else if algo = "a2c" then some ("model", logDir ++ "a2c_model.pkl")
  else if algo = "ppo2" then some ("model", logDir ++ "ppo2_model.pkl")
  else none

/-- One invocation of `callback(_locals, _globals)`.  `filt` models
`filterJSONSerializableObjects`, `locals_` the `_locals` dict, and
`cmr` the pair that `computeMeanReward(LOG_DIR, N_EPISODES_EVAL)`
would return if called. -/
def callback (filt : PyDict → PyDict) (g : Globals) (locals_ : PyDict)
    (cmr : Bool × Rat) : Globals × CallbackEffects :=
  let connectedPort : Option Int :=
    if g.viz = VizState.pyNone then some g.VISDOM_PORT else none
  let viz1 : VizState := if g.viz = VizState.pyNone then .connected else g.viz
  let wroteRlLocals : Option (String × PyDict) :=
    if g.params_saved then none
    else some (g.LOG_DIR ++ "rl_locals.json", filt locals_)
  let saveStep : Bool := (g.n_steps + 1) % g.SAVE_INTERVAL == 0
  let afterSave : Rat × Option (String × String) × Option (String × Nat) :=
    if saveStep then
      let mean_reward : Rat := if cmr.1 then cmr.2 else -10000
      if mean_reward > g.best_mean_reward then
        (mean_reward, saveTarget g.ALGO g.LOG_DIR,
         some (g.LOG_DIR, N_EPISODES_EVAL))
      else
        (g.best_mean_reward, none, some (g.LOG_DIR, N_EPISODES_EVAL))
    else
      (g.best_mean_reward, none, none)
  let plotStep : Bool := viz1.truthy && ((g.n_steps + 1) % g.LOG_INTERVAL == 0)
  let plots : List String :=
    if plotStep then
      [g.PLOT_TITLE, g.PLOT_TITLE ++ " smoothed", g.PLOT_TITLE ++ " [Episodes]"]
    else []
  let g' : Globals :=
    { g with viz := viz1, params_saved := true,
             best_mean_reward := afterSave.1,
             n_steps := g.n_steps + 1,
             win := if plotStep then some () else g.win,
             win_smooth := if plotStep then some () else g.win_smooth,
             win_episodes := if plotStep then some () else g.win_episodes }
  (g', { connectedPort := connectedPort, wroteRlLocals := wroteRlLocals,
         readRewardLog := afterSave.2.2, savedModel := afterSave.2.1,
         plots := plots, result := false })

/-- Input to one callback invocation: the locals dict and the value the
external `computeMeanReward` would report. -/
abbrev CallbackInput := PyDict × Bool × Rat

/-- Global state after a sequence of callback invocations. -/
def runCallbacks (filt : PyDict → PyDict) (g : Globals) :
    List CallbackInput → Globals
  | [] => g
  | i :: is => runCallbacks filt (callback filt g i.1 i.2).1 is

/-- Side effects of a sequence of callback invocations, in order. -/
def callbackTrace (filt : PyDict → PyDict) (g : Globals) :
    List CallbackInput → List CallbackEffects
  | [] => []
  | i :: is =>
      (callback filt g i.1 i.2).2 ::
        callbackTrace filt (callback filt g i.1 i.2).1 is

/-- Command-line arguments of train.py at their parsed types.  The
argparse choices restrict `algo` to `ALGO_CHOICES` and `srl_model` to
`SRL_MODEL_CHOICES` or the empty default. -/
structure Args where
  algo : String
  env : String
  seed : Int
  log_dir : String
  num_timesteps : Int
  srl_model : String
  num_stack : Int
  action_repeat : Int
  port : Int
  no_vis : Bool
deriving DecidableEq, Repr

/-- Choices accepted by the algo flag. -/
def ALGO_CHOICES : List String :=
  ["acer", "deepq", "a2c", "ppo2", "random_search", "random_agent"]

/-- Choices accepted by the srl-model flag (its default is the empty
string). -/
def SRL_MODEL_CHOICES : List String :=
  ["autoencoder", "ground_truth", "srl_priors", "supervised"]

/-- Function `configureEnvAndLogFolder(args, kuka_env)`.  `now` stands
for the formatted `datetime.now()` string.  On success it returns the
updated args, the updated kuka_env module, the updated globals, and
the path handed to `os.makedirs`; a Python `ValueError` becomes
`Except.error` carrying the message. -/
def configureEnvAndLogFolder (models : ModelsDict) (now : String)
    (args : Args) (kuka_env : KukaEnv) (g : Globals) :
    Except String (Args × KukaEnv × Globals × String) :=
  let step1 : Except String (Args × KukaEnv × String) :=
    if args.srl_model ≠ "" then
      let path := models.find args.srl_model
      let args1 := { args with log_dir := args.log_dir ++ args.srl_model ++ "/" }
      if args.srl_model = "ground_truth" then
        .ok (args1, { kuka_env with USE_GROUND_TRUTH := true }, "Ground Truth")
      else
        match path with
        | some p =>
            .ok (args1,
                 { kuka_env with USE_SRL := true,
                                 SRL_MODEL_PATH := models.log_folder ++ p },
                 args.srl_model)
        | none => .error ("Unsupported value for srl-model: " ++ args.srl_model)
    else
      .ok ({ args with log_dir := args.log_dir ++ "raw_pixels/" }, kuka_env,
           g.PLOT_TITLE)
  match step1 with
  | .error e => .error e
  | .ok (args1, ke1, title1) =>
      let logDir := args1.log_dir ++ g.ALGO ++ "/" ++ now ++ "/"
      .ok ({ args1 with log_dir := logDir }, ke1,
           { g with PLOT_TITLE := title1, LOG_DIR := logDir }, logDir)

/-- Function `saveEnvParams(kuka_env)`: the (path, JSON content) pair of
the file it writes, with `filt` modelling
`filterJSONSerializableObjects` and `logDir` the global `LOG_DIR`. -/
def saveEnvParams (filt : PyDict → PyDict) (logDir : String)
    (kuka_env : KukaEnv) : String × PyDict :=
  (logDir ++ "kuka_env_globals.json", filt kuka_env.globals_dict)

/-- Side effects of `main()`, in program order: directory creation, JSON
file writes, the global-seed call, and the delegation to the main of
the selected algorithm module. -/
inductive Action
  | mkdir (path : String)
  | writeFile (path : String) (content : PyDict)
  | setSeed (seed : Int)
  | delegate (algo : String)
deriving DecidableEq, Repr

/-- Function `main()` after argument parsing, as the final globals, the
final kuka_env module state, and the ordered side effects.  `vars_of`
models Python `vars(args)`; re-parsing through
`algo.customArguments(parser)` leaves the base fields of `args`
unchanged and is otherwise opaque. -/
def mainModel (models : ModelsDict) (filt : PyDict → PyDict)
    (vars_of : Args → PyDict) (now : String) (args : Args)
    (kuka_env : KukaEnv) :
    Except String (Globals × KukaEnv × List Action) :=
  let g0 := initGlobals
  let g1 := { g0 with ENV_NAME := args.env, ALGO := args.algo,
                      VISDOM_PORT := args.port,
                      viz := if args.no_vis then VizState.off else g0.viz }
  let g2 :=
    if args.algo = "acer" then { g1 with LOG_INTERVAL := 1, SAVE_INTERVAL := 20 }
    else if args.algo = "ppo2" then { g1 with LOG_INTERVAL := 10 }
    else g1
  let ke1 := { kuka_env with ACTION_REPEAT := args.action_repeat }
  match configureEnvAndLogFolder models now args ke1 g2 with
  | .error e => .error e
  | .ok (args2, ke2, g3, mkdirPath) =>
      let envParams := saveEnvParams filt g3.LOG_DIR ke2
      .ok (g3, ke2,
           [Action.mkdir mkdirPath,
            Action.writeFile (g3.LOG_DIR ++ "args.json") (filt (vars_of args2)),
            Action.writeFile envParams.1 envParams.2,
            Action.setSeed args.seed,
            Action.delegate args.algo])

/-- Recognizer for the delegation action. -/
def Action.isDelegate : Action → Bool
  | .delegate _ => true
  | _ => false

/-- Sample kuka_env module state used for concrete evaluations. -/
def sampleKukaEnv : KukaEnv := ⟨false, false, "", 1, ⟨0⟩⟩

/-- Models dict with no SRL model entries, as when the YAML file lists
none of the srl-model choices. -/
def emptyModels : ModelsDict := ⟨fun _ => none, "srl_zoo/logs/"⟩

/-- Sample parsed command line with every flag at its default. -/
def sampleArgs : Args where
  algo := "deepq"
  env := "KukaButtonGymEnv-v0"
  seed := 0
  log_dir := "/tmp/gym/"
  num_timesteps := 1000000
  srl_model := ""
  num_stack := 4
  action_repeat := 1
  port := 8097
  no_vis := false

/-- Global state just before the 500th step with the random_search
algorithm selected (no interval overrides apply to it). -/
def cexRandomSearch : Globals :=
  { initGlobals with ALGO := "random_search", n_steps := 499 }

/-- Global state just before the 500th step with the random_agent
algorithm selected. -/
def cexRandomAgent : Globals :=
  { initGlobals with ALGO := "random_agent", n_steps := 499 }

/-! Characterization lemmas for one callback step. -/

/-- Fields of the global state after one callback step. -/
theorem callback_state_fields (filt : PyDict → PyDict) (g : Globals)
    (loc : PyDict) (cmr : Bool × Rat) :
    ((callback filt g loc cmr).1).n_steps = g.n_steps + 1 ∧
    ((callback filt g loc cmr).1).params_saved = true ∧
    ((callback filt g loc cmr).1).LOG_DIR = g.LOG_DIR ∧
    ((callback filt g loc cmr).1).ALGO = g.ALGO ∧
    ((callback filt g loc cmr).1).SAVE_INTERVAL = g.SAVE_INTERVAL ∧
    ((callback filt g loc cmr).1).LOG_INTERVAL = g.LOG_INTERVAL ∧
    ((callback filt g loc cmr).1).viz =
      (if g.viz = VizState.pyNone then VizState.connected else g.viz) :=
  ⟨rfl, rfl, rfl, rfl, rfl, rfl, rfl⟩

/-- The model-saving effect of one callback step. -/
theorem callback_savedModel_eq (filt : PyDict → PyDict) (g : Globals)
    (loc : PyDict) (cmr : Bool × Rat) :
    ((callback filt g loc cmr).2).savedModel =
      if (g.n_steps + 1) % g.SAVE_INTERVAL = 0 ∧
          (if cmr.1 then cmr.2 else -10000) > g.best_mean_reward
      then saveTarget g.ALGO g.LOG_DIR else none := by
  simp only [callback]
  by_cases h1 : (g.n_steps + 1) % g.SAVE_INTERVAL = 0
  · by_cases h2 : (if cmr.1 then cmr.2 else (-10000 : Rat)) > g.best_mean_reward
    · simp [h1, h2]
    · simp [h1, h2]
  · simp [h1]

/-- The best-mean-reward tracker after one callback step. -/
theorem callback_best_eq (filt : PyDict → PyDict) (g : Globals)
    (loc : PyDict) (cmr : Bool × Rat) :
    ((callback filt g loc cmr).1).best_mean_reward =
      if (g.n_steps + 1) % g.SAVE_INTERVAL = 0 ∧
          (if cmr.1 then cmr.2 else -10000) > g.best_mean_reward
      then (if cmr.1 then cmr.2 else -10000) else g.best_mean_reward := by
  simp only [callback]
  by_cases h1 : (g.n_steps + 1) % g.SAVE_INTERVAL = 0
  · by_cases h2 : (if cmr.1 then cmr.2 else (-10000 : Rat)) > g.best_mean_reward
    · simp [h1, h2]
    · simp [h1, h2]
  · simp [h1]

/-- The reward-log read of one callback step. -/
theorem callback_readRewardLog_eq (filt : PyDict → PyDict) (g : Globals)
    (loc : PyDict) (cmr : Bool × Rat) :
    ((callback filt g loc cmr).2).readRewardLog =
      if (g.n_steps + 1) % g.SAVE_INTERVAL = 0
      then some (g.LOG_DIR, N_EPISODES_EVAL) else none := by
  simp only [callback]
  by_cases h1 : (g.n_steps + 1) % g.SAVE_INTERVAL = 0
  · by_cases h2 : (if cmr.1 then cmr.2 else (-10000 : Rat)) > g.best_mean_reward
    · simp [h1, h2]
    · simp [h1, h2]
  · simp [h1]

/-- The dashboard plots refreshed by one callback step. -/
theorem callback_plots_eq (filt : PyDict → PyDict) (g : Globals)
    (loc : PyDict) (cmr : Bool × Rat) :
    ((callback filt g loc cmr).2).plots =
      if g.viz ≠ VizState.off ∧ (g.n_steps + 1) % g.LOG_INTERVAL = 0
      then [g.PLOT_TITLE, g.PLOT_TITLE ++ " smoothed",
            g.PLOT_TITLE ++ " [Episodes]"]
      else [] := by
  simp only [callback]
  cases hv : g.viz <;>
    by_cases h1 : (g.n_steps + 1) % g.LOG_INTERVAL = 0 <;>
      simp [hv, h1, VizState.truthy]

/-- The locals-dump effect of one callback step. -/
theorem callback_wroteRlLocals_eq (filt : PyDict → PyDict) (g : Globals)
    (loc : PyDict) (cmr : Bool × Rat) :
    ((callback filt g loc cmr).2).wroteRlLocals =
      if g.params_saved then none
      else some (g.LOG_DIR ++ "rl_locals.json", filt loc) :=
  rfl

/-- The Visdom-connection effect of one callback step. -/
theorem callback_connectedPort_eq (filt : PyDict → PyDict) (g : Globals)
    (loc : PyDict) (cmr : Bool × Rat) :
    ((callback filt g loc cmr).2).connectedPort =
      if g.viz = VizState.pyNone then some g.VISDOM_PORT else none :=
  rfl

/-- The improvement branch picks a save target exactly for the four
baseline algorithms. -/
theorem saveTarget_isSome_iff (algo logDir : String) :
    (saveTarget algo logDir).isSome = true ↔
      algo ∈ ["deepq", "acer", "a2c", "ppo2"] := by
  simp only [saveTarget]
  split_ifs with h1 h2 h3 h4 <;> simp_all

/-! Claim theorems. -/

/-- C10: every invocation of callback returns False (never asking the
training loop to stop) and increments the global step counter
n_steps by exactly 1, regardless of which branches were taken. -/
theorem callback_returns_false_and_increments_step (filt : PyDict → PyDict)
    (g : Globals) (loc : PyDict) (cmr : Bool × Rat) :
    ((callback filt g loc cmr).2).result = false ∧
    ((callback filt g loc cmr).1).n_steps = g.n_steps + 1 :=
  ⟨rfl, rfl⟩

/-- C8: best_mean_reward never decreases across callback invocations,
its module-level initial value is -10000, and along any run it stays
at least -10000. -/
theorem best_mean_reward_monotone (filt : PyDict → PyDict) :
    (∀ (g : Globals) (loc : PyDict) (cmr : Bool × Rat),
        g.best_mean_reward ≤ ((callback filt g loc cmr).1).best_mean_reward) ∧
    initGlobals.best_mean_reward = -10000 ∧
    (∀ (g : Globals) (inputs : List CallbackInput),
        -10000 ≤ g.best_mean_reward →
        -10000 ≤ (runCallbacks filt g inputs).best_mean_reward) := by
  have step : ∀ (g : Globals) (loc : PyDict) (cmr : Bool × Rat),
      g.best_mean_reward ≤ ((callback filt g loc cmr).1).best_mean_reward := by
    intro g loc cmr
    rw [callback_best_eq]
    by_cases h : (g.n_steps + 1) % g.SAVE_INTERVAL = 0 ∧
        (if cmr.1 then cmr.2 else -10000) > g.best_mean_reward
    · rw [if_pos h]; exact le_of_lt h.2
    · rw [if_neg h]
  refine ⟨step, rfl, ?_⟩
  intro g inputs
  induction inputs generalizing g with
  | nil => intro h; simpa [runCallbacks] using h
  | cons i is ih =>
      intro h
      simp only [runCallbacks]
      exact ih _ (le_trans h (step g i.1 i.2))

/-- C8 witness: along a concrete run the tracker stays at least
-10000. -/
theorem best_mean_reward_monotone_witness :
    -10000 ≤ (runCallbacks id initGlobals [(⟨0⟩, true, 5)]).best_mean_reward :=
  (best_mean_reward_monotone id).2.2 initGlobals [(⟨0⟩, true, 5)] (by decide)

/-- C3: at a save step with an insufficient reward (not strictly above
the running best, including the -10000 substituted when
computeMeanReward reports too few episodes), no save call is made and
best_mean_reward is left unchanged. -/
theorem no_save_and_no_update_when_reward_insufficient
    (filt : PyDict → PyDict) (g : Globals) (loc : PyDict) (cmr : Bool × Rat)
    (hstep : (g.n_steps + 1) % g.SAVE_INTERVAL = 0)
    (hle : (if cmr.1 then cmr.2 else -10000) ≤ g.best_mean_reward) :
    ((callback filt g loc cmr).2).savedModel = none ∧
    ((callback filt g loc cmr).1).best_mean_reward = g.best_mean_reward := by
  have hc : ¬((g.n_steps + 1) % g.SAVE_INTERVAL = 0 ∧
      (if cmr.1 then cmr.2 else -10000) > g.best_mean_reward) := by
    rintro ⟨-, h2⟩
    exact absurd h2 (not_lt.mpr hle)
  refine ⟨?_, ?_⟩
  · rw [callback_savedModel_eq, if_neg hc]
  · rw [callback_best_eq, if_neg hc]

/-- C3 witness: a concrete save step where too few episodes were
recorded leaves the state unchanged and saves nothing. -/
theorem no_save_when_reward_insufficient_witness :
    ((callback id { initGlobals with n_steps := 499 } ⟨0⟩
        (false, 0)).2).savedModel = none ∧
    ((callback id { initGlobals with n_steps := 499 } ⟨0⟩
        (false, 0)).1).best_mean_reward =
      ({ initGlobals with n_steps := 499 } : Globals).best_mean_reward :=
  no_save_and_no_update_when_reward_insufficient id
    { initGlobals with n_steps := 499 } ⟨0⟩ (false, 0) (by decide) (by decide)

/-- Once params_saved holds, no later callback invocation writes
rl_locals.json. -/
theorem callbackTrace_no_rl_locals (filt : PyDict → PyDict) (g : Globals)
    (inputs : List CallbackInput) (h : g.params_saved = true) :
    (callbackTrace filt g inputs).map (fun e => e.wroteRlLocals) =
      List.replicate inputs.length none := by
  induction inputs generalizing g with
  | nil => simp [callbackTrace]
  | cons i is ih =>
      simp only [callbackTrace, List.map_cons, List.length_cons,
        List.replicate_succ]
      refine congrArg₂ List.cons ?_ ?_
      · rw [callback_wroteRlLocals_eq, if_pos h]
      · exact ih _ (callback_state_fields filt g i.1 i.2).2.1

/-- C9: starting from the module-initial params_saved = False, the
first callback invocation dumps the filtered locals to
LOG_DIR + rl_locals.json and sets params_saved, and every later
invocation of the run leaves the file untouched. -/
theorem rl_locals_written_once (filt : PyDict → PyDict) (g : Globals)
    (loc : PyDict) (cmr : Bool × Rat) (rest : List CallbackInput)
    (h : g.params_saved = false) :
    ((callback filt g loc cmr).1).params_saved = true ∧
    (callbackTrace filt g ((loc, cmr) :: rest)).map
        (fun e => e.wroteRlLocals) =
      some (g.LOG_DIR ++ "rl_locals.json", filt loc) ::
        List.replicate rest.length none := by
  refine ⟨(callback_state_fields filt g loc cmr).2.1, ?_⟩
  simp only [callbackTrace, List.map_cons]
  refine congrArg₂ List.cons ?_ ?_
  · rw [callback_wroteRlLocals_eq, if_neg (by simp [h])]
  · exact callbackTrace_no_rl_locals filt _ rest
      (callback_state_fields filt g loc cmr).2.1

/-- C9 witness: a concrete two-invocation run writes rl_locals.json
exactly once, at the first invocation. -/
theorem rl_locals_written_once_witness :
    ((callback id initGlobals ⟨3⟩ (true, 0)).1).params_saved = true ∧
    (callbackTrace id initGlobals [(⟨3⟩, true, 0), (⟨4⟩, true, 0)]).map
        (fun e => e.wroteRlLocals) =
      some (initGlobals.LOG_DIR ++ "rl_locals.json", id (⟨3⟩ : PyDict)) ::
        List.replicate 1 none :=
  rl_locals_written_once id initGlobals ⟨3⟩ (true, 0) [(⟨4⟩, true, 0)] rfl

/-- C1 counterexample: with the random_search algorithm selected, at a
save step whose computed mean reward strictly exceeds the running
best, no checkpoint save is triggered (only best_mean_reward is
updated), refuting the claimed exactly-when correspondence. -/
theorem save_step_improvement_without_save :
    (cexRandomSearch.n_steps + 1) % cexRandomSearch.SAVE_INTERVAL = 0 ∧
    (1 : Rat) > cexRandomSearch.best_mean_reward ∧
    ((callback id cexRandomSearch ⟨0⟩ (true, 1)).2).savedModel = none ∧
    ((callback id cexRandomSearch ⟨0⟩ (true, 1)).1).best_mean_reward = 1 := by
  decide

/-- C1 (amended): the reward log is read via computeMeanReward exactly
at steps where n_steps + 1 is a multiple of SAVE_INTERVAL; at such a
step a checkpoint save is triggered exactly when the computed mean
reward strictly exceeds best_mean_reward and the selected algorithm
is one of deepq, acer, a2c, ppo2; and whenever the computed mean
reward strictly exceeds the best at a save step, best_mean_reward is
updated to it, whatever the algorithm. -/
theorem callback_read_and_save_exactly (filt : PyDict → PyDict)
    (g : Globals) (loc : PyDict) (cmr : Bool × Rat) :
    (((callback filt g loc cmr).2).readRewardLog ≠ none ↔
        (g.n_steps + 1) % g.SAVE_INTERVAL = 0) ∧
    (((callback filt g loc cmr).2).savedModel ≠ none ↔
        ((g.n_steps + 1) % g.SAVE_INTERVAL = 0 ∧
         (if cmr.1 then cmr.2 else -10000) > g.best_mean_reward ∧
         g.ALGO ∈ ["deepq", "acer", "a2c", "ppo2"])) ∧
    ((g.n_steps + 1) % g.SAVE_INTERVAL = 0 →
        (if cmr.1 then cmr.2 else -10000) > g.best_mean_reward →
        ((callback filt g loc cmr).1).best_mean_reward =
          (if cmr.1 then cmr.2 else -10000)) := by
  refine ⟨?_, ?_, ?_⟩
  · rw [callback_readRewardLog_eq]
    by_cases h : (g.n_steps + 1) % g.SAVE_INTERVAL = 0
    · simp [h]
    · simp [h]
  · rw [callback_savedModel_eq]
    by_cases h : (g.n_steps + 1) % g.SAVE_INTERVAL = 0 ∧
        (if cmr.1 then cmr.2 else -10000) > g.best_mean_reward
    · rw [if_pos h, Option.ne_none_iff_isSome, saveTarget_isSome_iff]
      simp [h.1, h.2]
    · rw [if_neg h]
      constructor
      · intro hne; exact absurd rfl hne
      · rintro ⟨h1, h2, -⟩; exact absurd ⟨h1, h2⟩ h
  · intro h1 h2
    rw [callback_best_eq, if_pos ⟨h1, h2⟩]

/-- C1 witness: at a concrete deepq save step with an improving reward,
the tracker is updated to the new mean. -/
theorem callback_read_and_save_exactly_witness :
    ((callback id { initGlobals with ALGO := "deepq", n_steps := 499 } ⟨0⟩
        (true, 2)).1).best_mean_reward = 2 :=
  (callback_read_and_save_exactly id
      { initGlobals with ALGO := "deepq", n_steps := 499 } ⟨0⟩
      (true, 2)).2.2 (by decide) (by decide)

/-- C2 counterexample: with the random_agent algorithm selected, an
improving mean reward at a save step produces no save call at all. -/
theorem improvement_without_save_call_random_agent :
    (cexRandomAgent.n_steps + 1) % cexRandomAgent.SAVE_INTERVAL = 0 ∧
    (0 : Rat) > cexRandomAgent.best_mean_reward ∧
    ((callback id cexRandomAgent ⟨0⟩ (true, 0)).2).savedModel = none := by
  decide

/-- C2 (amended): when the mean reward at a save step strictly exceeds
the running best, then for deepq the save method of the locals entry
act is called, for acer, a2c and ppo2 that of the locals entry model,
writing the checkpoint algo_model.pkl under LOG_DIR; for
random_search and random_agent no save call is made. -/
theorem callback_save_call_per_algo (filt : PyDict → PyDict) (g : Globals)
    (loc : PyDict) (cmr : Bool × Rat)
    (hstep : (g.n_steps + 1) % g.SAVE_INTERVAL = 0)
    (himp : (if cmr.1 then cmr.2 else -10000) > g.best_mean_reward) :
    (g.ALGO ∈ ["deepq", "acer", "a2c", "ppo2"] →
        ((callback filt g loc cmr).2).savedModel =
          some ((if g.ALGO = "deepq" then "act" else "model"),
                g.LOG_DIR ++ g.ALGO ++ "_model.pkl")) ∧
    (g.ALGO ∈ ["random_search", "random_agent"] →
        ((callback filt g loc cmr).2).savedModel = none) := by
  rw [callback_savedModel_eq, if_pos ⟨hstep, himp⟩]
  constructor
  · intro hmem
    simp only [List.mem_cons, List.not_mem_nil, or_false] at hmem
    rcases hmem with h | h | h | h <;>
      rw [h] <;> simp [saveTarget, String.append_assoc]
  · intro hmem
    simp only [List.mem_cons, List.not_mem_nil, or_false] at hmem
    rcases hmem with h | h <;> rw [h] <;> simp [saveTarget]

/-- C2 witness: at a concrete acer save step with an improving reward,
the model entry of the locals is saved as acer_model.pkl. -/
theorem callback_save_call_per_algo_witness :
    ((callback id
        { initGlobals with ALGO := "acer", LOG_DIR := "d/", n_steps := 19,
                           SAVE_INTERVAL := 20 } ⟨0⟩
        (true, 2)).2).savedModel = some ("model", "d/" ++ "acer" ++ "_model.pkl") :=
  ((callback_save_call_per_algo id
      { initGlobals with ALGO := "acer", LOG_DIR := "d/", n_steps := 19,
                         SAVE_INTERVAL := 20 } ⟨0⟩
      (true, 2) (by decide) (by decide)).1 (by decide))

/-- C5: dashboard plot refreshes (the two visdom plots and the episode
plot, issued together) happen exactly when visualization is enabled
(viz is truthy, the no-vis flag being the only way to make it False)
and n_steps + 1 is a multiple of LOG_INTERVAL; with viz set to False
no Visdom connection is ever created and no plot is ever refreshed
along any run. -/
theorem plots_exactly_when_enabled (filt : PyDict → PyDict) :
    (∀ (g : Globals) (loc : PyDict) (cmr : Bool × Rat),
        ((callback filt g loc cmr).2).plots =
          (if g.viz ≠ VizState.off ∧ (g.n_steps + 1) % g.LOG_INTERVAL = 0
           then [g.PLOT_TITLE, g.PLOT_TITLE ++ " smoothed",
                 g.PLOT_TITLE ++ " [Episodes]"]
           else [])) ∧
    (∀ (g : Globals) (inputs : List CallbackInput),
        g.viz = VizState.off →
        ∀ e ∈ callbackTrace filt g inputs,
          e.connectedPort = none ∧ e.plots = []) := by
  constructor
  · intro g loc cmr
    exact callback_plots_eq filt g loc cmr
  · intro g inputs
    induction inputs generalizing g with
    | nil =>
        intro h e he
        simp [callbackTrace] at he
    | cons i is ih =>
        intro h e he
        simp only [callbackTrace, List.mem_cons] at he
        rcases he with rfl | he
        · constructor
          · rw [callback_connectedPort_eq, if_neg (by simp [h])]
          · rw [callback_plots_eq, if_neg (by simp [h])]
        · have hviz : ((callback filt g i.1 i.2).1).viz = VizState.off := by
            rw [(callback_state_fields filt g i.1 i.2).2.2.2.2.2.2,
              if_neg (by simp [h]), h]
          exact ih _ hviz e he

/-- C5 witness: with viz disabled, a concrete invocation neither opens a
Visdom connection nor refreshes a plot. -/
theorem plots_exactly_when_enabled_witness :
    ((callback id { initGlobals with viz := VizState.off } ⟨0⟩
        (true, 0)).2).connectedPort = none ∧
    ((callback id { initGlobals with viz := VizState.off } ⟨0⟩
        (true, 0)).2).plots = [] :=
  (plots_exactly_when_enabled id).2 { initGlobals with viz := VizState.off }
    [(⟨0⟩, true, 0)] rfl _ (by simp [callbackTrace])

/-- Forward characterization of successful configureEnvAndLogFolder
runs: when the SRL model resolves, the call succeeds and builds the
log directory from the SRL segment, the algorithm name and the
date-time component. -/
theorem configure_ok_of_resolves (models : ModelsDict) (now : String)
    (args : Args) (ke : KukaEnv) (g : Globals)
    (h : args.srl_model = "" ∨ args.srl_model = "ground_truth" ∨
        models.find args.srl_model ≠ none) :
    ∃ ke' title,
      configureEnvAndLogFolder models now args ke g =
        .ok ({ args with log_dir :=
                 args.log_dir ++
                   (if args.srl_model = "" then "raw_pixels/"
                    else args.srl_model ++ "/") ++
                   (g.ALGO ++ "/" ++ now ++ "/") },
             ke',
             { g with PLOT_TITLE := title,
                      LOG_DIR :=
                        args.log_dir ++
                          (if args.srl_model = "" then "raw_pixels/"
                           else args.srl_model ++ "/") ++
                          (g.ALGO ++ "/" ++ now ++ "/") },
             args.log_dir ++
               (if args.srl_model = "" then "raw_pixels/"
                else args.srl_model ++ "/") ++
               (g.ALGO ++ "/" ++ now ++ "/")) := by
  by_cases h0 : args.srl_model = ""
  · refine ⟨ke, g.PLOT_TITLE, ?_⟩
    simp [configureEnvAndLogFolder, h0, String.append_assoc]
  · by_cases h1 : args.srl_model = "ground_truth"
    · refine ⟨{ ke with USE_GROUND_TRUTH := true }, "Ground Truth", ?_⟩
      simp [configureEnvAndLogFolder, h0, h1, String.append_assoc]
    · have h2 : models.find args.srl_model ≠ none := by
        rcases h with h | h | h
        · exact absurd h h0
        · exact absurd h h1
        · exact h
      obtain ⟨p, hp⟩ := Option.ne_none_iff_exists'.mp h2
      refine ⟨{ ke with USE_SRL := true,
                        SRL_MODEL_PATH := models.log_folder ++ p },
              args.srl_model, ?_⟩
      simp [configureEnvAndLogFolder, h0, h1, hp, String.append_assoc]

/-- When the SRL model is neither empty nor ground_truth and is absent
from the models dict, configureEnvAndLogFolder raises ValueError. -/
theorem configure_error_of_unresolved (models : ModelsDict) (now : String)
    (args : Args) (ke : KukaEnv) (g : Globals)
    (h0 : args.srl_model ≠ "") (h1 : args.srl_model ≠ "ground_truth")
    (h2 : models.find args.srl_model = none) :
    configureEnvAndLogFolder models now args ke g =
      .error ("Unsupported value for srl-model: " ++ args.srl_model) := by
  simp [configureEnvAndLogFolder, h0, h1, h2]

/-- Inverse characterization: any successful configureEnvAndLogFolder
run returns args updated only in log_dir, globals updated only in
PLOT_TITLE and LOG_DIR, and hands the new log directory to
os.makedirs. -/
theorem configure_ok_elim {models : ModelsDict} {now : String}
    {args : Args} {ke : KukaEnv} {g : Globals} {args' : Args}
    {ke' : KukaEnv} {g' : Globals} {p : String}
    (h : configureEnvAndLogFolder models now args ke g =
        .ok (args', ke', g', p)) :
    ∃ title,
      args' = { args with log_dir := p } ∧
      g' = { g with PLOT_TITLE := title, LOG_DIR := p } ∧
      p = args.log_dir ++
            (if args.srl_model = "" then "raw_pixels/"
             else args.srl_model ++ "/") ++ (g.ALGO ++ "/" ++ now ++ "/") := by
  by_cases hr : args.srl_model = "" ∨ args.srl_model = "ground_truth" ∨
      models.find args.srl_model ≠ none
  · obtain ⟨ke2, title, heq⟩ := configure_ok_of_resolves models now args ke g hr
    rw [heq] at h
    simp only [Except.ok.injEq, Prod.mk.injEq] at h
    obtain ⟨ha, -, hg, hp⟩ := h
    subst ha
    subst hg
    subst hp
    exact ⟨title, rfl, rfl, rfl⟩
  · have h0 : args.srl_model ≠ "" := fun hh => hr (Or.inl hh)
    have h1 : args.srl_model ≠ "ground_truth" := fun hh => hr (Or.inr (Or.inl hh))
    have h2 : models.find args.srl_model = none := by
      by_contra hh
      exact hr (Or.inr (Or.inr hh))
    rw [configure_error_of_unresolved models now args ke g h0 h1 h2] at h
    exact absurd h (by simp)

/-- Any successful mainModel run produces exactly the five actions of
main in program order, with the globals carrying the selected
algorithm, environment and the per-algorithm interval overrides. -/
theorem mainModel_ok_elim {models : ModelsDict} {filt : PyDict → PyDict}
    {vars_of : Args → PyDict} {now : String} {args : Args} {ke : KukaEnv}
    {g' : Globals} {ke2 : KukaEnv} {acts : List Action}
    (h : mainModel models filt vars_of now args ke = .ok (g', ke2, acts)) :
    acts = [Action.mkdir g'.LOG_DIR,
            Action.writeFile (g'.LOG_DIR ++ "args.json")
              (filt (vars_of { args with log_dir := g'.LOG_DIR })),
            Action.writeFile (g'.LOG_DIR ++ "kuka_env_globals.json")
              (filt ke2.globals_dict),
            Action.setSeed args.seed,
            Action.delegate args.algo] ∧
    g'.ALGO = args.algo ∧
    g'.ENV_NAME = args.env ∧
    g'.LOG_INTERVAL = (if args.algo = "acer" then 1
                       else if args.algo = "ppo2" then 10 else 100) ∧
    g'.SAVE_INTERVAL = (if args.algo = "acer" then 20 else 500) := by
  simp only [mainModel] at h
  split at h
  next e heq => exact absurd h (by simp)
  next args2 ke2x g3 mkdirPath heq =>
    obtain ⟨title, ha2, hg3, hp⟩ := configure_ok_elim heq
    simp only [Except.ok.injEq, Prod.mk.injEq] at h
    obtain ⟨rfl, rfl, rfl⟩ := h
    subst ha2
    subst hg3
    refine ⟨?_, ?_, ?_, ?_, ?_⟩ <;>
      by_cases hA : args.algo = "acer" <;> by_cases hP : args.algo = "ppo2" <;>
        simp [hA, hP, saveEnvParams, initGlobals]

/-- C4 counterexample: requesting an SRL model that the models dict does
not list makes configureEnvAndLogFolder raise ValueError instead of
returning args, so the claimed for-every-args behaviour fails. -/
theorem configure_unknown_srl_model_raises :
    configureEnvAndLogFolder emptyModels "18-04-18_10h04_15"
        { sampleArgs with srl_model := "autoencoder" } sampleKukaEnv
        { initGlobals with ALGO := "deepq" } =
      .error "Unsupported value for srl-model: autoencoder" := rfl

/-- C4 (amended): provided the requested SRL model resolves (empty,
ground_truth, or listed in the models dict), configureEnvAndLogFolder
extends args.log_dir with the SRL segment (raw_pixels/ when empty)
then the algorithm name and the date-time component each followed by
a slash, stores the result in the LOG_DIR global, hands it to
os.makedirs and returns args; main then persists the filtered merged
configuration as JSON to LOG_DIR + args.json.  An unresolved SRL
model raises ValueError instead. -/
theorem configure_extends_log_dir_and_args_json :
    (∀ (models : ModelsDict) (now : String) (args : Args) (ke : KukaEnv)
        (g : Globals),
      (args.srl_model = "" ∨ args.srl_model = "ground_truth" ∨
          models.find args.srl_model ≠ none) →
      ∃ ke' title,
        configureEnvAndLogFolder models now args ke g =
          .ok ({ args with log_dir :=
                   args.log_dir ++
                     (if args.srl_model = "" then "raw_pixels/"
                      else args.srl_model ++ "/") ++
                     (g.ALGO ++ "/" ++ now ++ "/") },
               ke',
               { g with PLOT_TITLE := title,
                        LOG_DIR :=
                          args.log_dir ++
                            (if args.srl_model = "" then "raw_pixels/"
                             else args.srl_model ++ "/") ++
                            (g.ALGO ++ "/" ++ now ++ "/") },
               args.log_dir ++
                 (if args.srl_model = "" then "raw_pixels/"
                  else args.srl_model ++ "/") ++
                 (g.ALGO ++ "/" ++ now ++ "/"))) ∧
    (∀ (models : ModelsDict) (filt : PyDict → PyDict)
        (vars_of : Args → PyDict) (now : String) (args : Args)
        (ke : KukaEnv) (g' : Globals) (ke2 : KukaEnv) (acts : List Action),
      mainModel models filt vars_of now args ke = .ok (g', ke2, acts) →
      Action.writeFile (g'.LOG_DIR ++ "args.json")
          (filt (vars_of { args with log_dir := g'.LOG_DIR })) ∈ acts) := by
  constructor
  · exact configure_ok_of_resolves
  · intro models filt vars_of now args ke g' ke2 acts h
    rw [(mainModel_ok_elim h).1]
    simp

/-- C4 witness: a concrete successful main run writes args.json inside
the derived log directory. -/
theorem configure_extends_log_dir_and_args_json_witness :
    Action.writeFile "/tmp/gym/raw_pixels/deepq/NOW/args.json" ⟨1⟩ ∈
      [Action.mkdir "/tmp/gym/raw_pixels/deepq/NOW/",
       Action.writeFile "/tmp/gym/raw_pixels/deepq/NOW/args.json" ⟨1⟩,
       Action.writeFile "/tmp/gym/raw_pixels/deepq/NOW/kuka_env_globals.json"
         ⟨0⟩,
       Action.setSeed 0,
       Action.delegate "deepq"] :=
  configure_extends_log_dir_and_args_json.2 emptyModels id (fun _ => ⟨1⟩)
    "NOW" sampleArgs sampleKukaEnv
    { initGlobals with ENV_NAME := "KukaButtonGymEnv-v0", ALGO := "deepq",
                       LOG_DIR := "/tmp/gym/raw_pixels/deepq/NOW/" }
    sampleKukaEnv
    [Action.mkdir "/tmp/gym/raw_pixels/deepq/NOW/",
     Action.writeFile "/tmp/gym/raw_pixels/deepq/NOW/args.json" ⟨1⟩,
     Action.writeFile "/tmp/gym/raw_pixels/deepq/NOW/kuka_env_globals.json"
       ⟨0⟩,
     Action.setSeed 0,
     Action.delegate "deepq"] rfl

/-- C6: saveEnvParams writes exactly the filtered (JSON-serializable)
kuka_env globals dict as JSON to LOG_DIR + kuka_env_globals.json, and
every successful main run performs exactly that write. -/
theorem kuka_env_globals_snapshot :
    (∀ (filt : PyDict → PyDict) (logDir : String) (ke : KukaEnv),
        saveEnvParams filt logDir ke =
          (logDir ++ "kuka_env_globals.json", filt ke.globals_dict)) ∧
    (∀ (models : ModelsDict) (filt : PyDict → PyDict)
        (vars_of : Args → PyDict) (now : String) (args : Args)
        (ke : KukaEnv) (g' : Globals) (ke2 : KukaEnv) (acts : List Action),
      mainModel models filt vars_of now args ke = .ok (g', ke2, acts) →
      Action.writeFile (g'.LOG_DIR ++ "kuka_env_globals.json")
          (filt ke2.globals_dict) ∈ acts) := by
  refine ⟨fun filt logDir ke => rfl, ?_⟩
  intro models filt vars_of now args ke g' ke2 acts h
  rw [(mainModel_ok_elim h).1]
  simp

/-- C6 witness: a concrete successful main run writes the filtered
kuka_env globals snapshot inside the derived log directory. -/
theorem kuka_env_globals_snapshot_witness :
    Action.writeFile "/tmp/gym/raw_pixels/deepq/NOW/kuka_env_globals.json"
        ⟨0⟩ ∈
      [Action.mkdir "/tmp/gym/raw_pixels/deepq/NOW/",
       Action.writeFile "/tmp/gym/raw_pixels/deepq/NOW/args.json" ⟨1⟩,
       Action.writeFile "/tmp/gym/raw_pixels/deepq/NOW/kuka_env_globals.json"
         ⟨0⟩,
       Action.setSeed 0,
       Action.delegate "deepq"] :=
  kuka_env_globals_snapshot.2 emptyModels id (fun _ => ⟨1⟩)
    "NOW" sampleArgs sampleKukaEnv
    { initGlobals with ENV_NAME := "KukaButtonGymEnv-v0", ALGO := "deepq",
                       LOG_DIR := "/tmp/gym/raw_pixels/deepq/NOW/" }
    sampleKukaEnv
    [Action.mkdir "/tmp/gym/raw_pixels/deepq/NOW/",
     Action.writeFile "/tmp/gym/raw_pixels/deepq/NOW/args.json" ⟨1⟩,
     Action.writeFile "/tmp/gym/raw_pixels/deepq/NOW/kuka_env_globals.json"
       ⟨0⟩,
     Action.setSeed 0,
     Action.delegate "deepq"] rfl

/-- C7 counterexample: with an SRL model missing from the models dict,
main propagates the ValueError and never reaches the delegation, so
the claimed for-every-parsed-command-line behaviour fails. -/
theorem main_raises_without_delegating :
    mainModel emptyModels id (fun _ => ⟨1⟩) "NOW"
        { sampleArgs with srl_model := "autoencoder" } sampleKukaEnv =
      .error "Unsupported value for srl-model: autoencoder" := rfl

/-- C7 (amended): every main run that does not abort on an unresolved
SRL model resolves the algorithm with the interval overrides (acer:
LOG_INTERVAL 1 and SAVE_INTERVAL 20; ppo2: LOG_INTERVAL 10),
configures the log folder, saves args and the environment
parameters, sets the seed, and delegates to the main of the selected
algorithm exactly once, as its last action. -/
theorem main_sequences_and_delegates_once
    (models : ModelsDict) (filt : PyDict → PyDict) (vars_of : Args → PyDict)
    (now : String) (args : Args) (ke : KukaEnv) (g' : Globals)
    (ke2 : KukaEnv) (acts : List Action)
    (h : mainModel models filt vars_of now args ke = .ok (g', ke2, acts)) :
    acts.getLast? = some (Action.delegate args.algo) ∧
    acts.countP Action.isDelegate = 1 ∧
    g'.ALGO = args.algo ∧
    g'.LOG_INTERVAL = (if args.algo = "acer" then 1
                       else if args.algo = "ppo2" then 10 else 100) ∧
    g'.SAVE_INTERVAL = (if args.algo = "acer" then 20 else 500) ∧
    Action.mkdir g'.LOG_DIR ∈ acts ∧
    Action.writeFile (g'.LOG_DIR ++ "args.json")
        (filt (vars_of { args with log_dir := g'.LOG_DIR })) ∈ acts ∧
    Action.writeFile (g'.LOG_DIR ++ "kuka_env_globals.json")
        (filt ke2.globals_dict) ∈ acts ∧
    Action.setSeed args.seed ∈ acts := by
  obtain ⟨hacts, hA, hE, hL, hS⟩ := mainModel_ok_elim h
  subst hacts
  refine ⟨rfl, ?_, hA, hL, hS, ?_, ?_, ?_, ?_⟩ <;>
    simp [List.countP_cons, Action.isDelegate]

/-- C7 witness: the concrete run above delegates exactly once, at the
end. -/
theorem main_sequences_and_delegates_once_witness :
    ([Action.mkdir "/tmp/gym/raw_pixels/deepq/NOW/",
      Action.writeFile "/tmp/gym/raw_pixels/deepq/NOW/args.json" ⟨1⟩,
      Action.writeFile "/tmp/gym/raw_pixels/deepq/NOW/kuka_env_globals.json"
        ⟨0⟩,
      Action.setSeed 0,
      Action.delegate "deepq"] : List Action).getLast? =
      some (Action.delegate "deepq") :=
  (main_sequences_and_delegates_once emptyModels id (fun _ => ⟨1⟩)
      "NOW" sampleArgs sampleKukaEnv
      { initGlobals with ENV_NAME := "KukaButtonGymEnv-v0", ALGO := "deepq",
                         LOG_DIR := "/tmp/gym/raw_pixels/deepq/NOW/" }
      sampleKukaEnv
      [Action.mkdir "/tmp/gym/raw_pixels/deepq/NOW/",
       Action.writeFile "/tmp/gym/raw_pixels/deepq/NOW/args.json" ⟨1⟩,
       Action.writeFile "/tmp/gym/raw_pixels/deepq/NOW/kuka_env_globals.json"
         ⟨0⟩,
       Action.setSeed 0,
       Action.delegate "deepq"] rfl).1

end RLBaselinesTrain
